import Mathlib

/-!
Verification of the Boing-ball SVG geometry pipeline (`src/boing.py`).

The Python source is shallowly embedded over the real numbers: `Vec3`
mirrors the 3-tuples of the source, the pure geometry functions
(`deg2rad`, `rot_z`, `rot_y`, `cross`, `sub`, `dot`, `sph_to_cart`,
`project_to_svg`) are translated term by term, the SVG document is
modelled structurally as a list of `SvgElem` values in emission order,
and the fallible parts (the even-count assertion and Python's
`ZeroDivisionError` on real division by zero) are modelled with
`Except BuildError`.
-/

open Real

/-- A 3-vector in world space, mirroring the `Vec3` tuples of the source. -/
structure Vec3 where
  x : ℝ
  y : ℝ
  z : ℝ

/-- A 2-vector in canvas space, mirroring the `Vec2` tuples of the source. -/
structure Vec2 where
  x : ℝ
  y : ℝ

/-- Degree-to-radian conversion, `deg2rad` in the source: `a * math.pi / 180.0`. -/
noncomputable def deg2rad (a : ℝ) : ℝ :=
  a * π / 180

/-- Rotation about the Z axis, `rot_z` in the source: the angle is given in
degrees; the (x, y) plane is rotated by the standard 2-D rotation matrix and
z is unchanged. -/
noncomputable def rot_z (p : Vec3) (adeg : ℝ) : Vec3 :=
  let a := deg2rad adeg
  ⟨cos a * p.x - sin a * p.y, sin a * p.x + cos a * p.y, p.z⟩

/-- Rotation about the Y axis, `rot_y` in the source: the angle is given in
degrees; `x' = c*x + s*z`, `y' = y`, `z' = -s*x + c*z`. -/
noncomputable def rot_y (p : Vec3) (adeg : ℝ) : Vec3 :=
  let a := deg2rad adeg
  ⟨cos a * p.x + sin a * p.z, p.y, -sin a * p.x + cos a * p.z⟩

/-- The `cross` function exactly as the source writes it, including the typo in
the third component: the source returns `ax*by - ay*bz` there, where the
mathematical cross product has `ax*by - ay*bx`. -/
def cross (a b : Vec3) : Vec3 :=
  ⟨a.y * b.z - a.z * b.y, a.z * b.x - a.x * b.z, a.x * b.y - a.y * b.z⟩

/-- The mathematically standard cross product, as the specification describes
the `cross` operation. Used to compare the source's `cross` against the spec. -/
def crossStandard (a b : Vec3) : Vec3 :=
  ⟨a.y * b.z - a.z * b.y, a.z * b.x - a.x * b.z, a.x * b.y - a.y * b.x⟩

/-- Componentwise vector subtraction, `sub` in the source. -/
def sub (a b : Vec3) : Vec3 :=
  ⟨a.x - b.x, a.y - b.y, a.z - b.z⟩

/-- Dot product, `dot` in the source. -/
def dot (a b : Vec3) : ℝ :=
  a.x * b.x + a.y * b.y + a.z * b.z

/-- Spherical-to-Cartesian conversion at radius `r`, `sph_to_cart` in the
source: `x = r*cos(lat)*cos(lon)`, `y = r*cos(lat)*sin(lon)`, `z = r*sin(lat)`. -/
noncomputable def sph_to_cart (lat lon r : ℝ) : Vec3 :=
  let cl := cos lat
  ⟨r * cl * cos lon, r * cl * sin lon, r * sin lat⟩

/-- Orthographic projection to canvas coordinates, `project_to_svg` in the
source: `(x, y, z) ↦ (cx + x, cy - z)`, dropping the depth axis `y`. -/
def project_to_svg (cx cy : ℝ) (p : Vec3) : Vec2 :=
  ⟨cx + p.x, cy - p.z⟩

/-- The fixed view direction of the camera, `view_dir` in the source:
the camera looks along negative Y. -/
def viewDir : Vec3 :=
  ⟨0, -1, 0⟩

/-- The red facet color constant `COLOR_RED` of the source. -/
def COLOR_RED : String :=
  "#ff0000"

/-- The white facet color constant `COLOR_WHITE` of the source. -/
def COLOR_WHITE : String :=
  "#ffffff"

/-- The i-th latitude sample for band count `B`, as computed inside the list
comprehension `(-math.pi/2) + (i * math.pi / LAT_BANDS)` of the source. -/
noncomputable def latAt (B i : ℕ) : ℝ :=
  -(π / 2) + (i : ℝ) * π / (B : ℝ)

/-- The latitude sample list `lats` of the source: `B + 1` samples. -/
noncomputable def lats (B : ℕ) : List ℝ :=
  (List.range (B + 1)).map (fun i => latAt B i)

/-- The j-th longitude sample for gore count `G`, as computed inside the list
comprehension `j * 2*math.pi / LONG_GORES` of the source. -/
noncomputable def lonAt (G j : ℕ) : ℝ :=
  (j : ℝ) * 2 * π / (G : ℝ)

/-- The longitude sample list `lons` of the source: `G + 1` samples, the last
one at angle `2π` (seam closure). -/
noncomputable def lons (G : ℕ) : List ℝ :=
  (List.range (G + 1)).map (fun j => lonAt G j)

/-- The vertex transform `xform` of the source: spin about Z first, then tilt
about Y, both angles in degrees. -/
noncomputable def xform (spinDeg tiltDeg : ℝ) (v : Vec3) : Vec3 :=
  rot_y (rot_z v spinDeg) tiltDeg

/-- One triangular facet: three transformed vertices in winding order plus the
fill color attached when the facet's cell is generated. -/
structure Facet where
  a : Vec3
  b : Vec3
  c : Vec3
  fill : String

/-- The two facets the source generates for grid cell `(i, j)` from the sample
lists `latsL`, `lonsL`: corners `v00 v10 v11 v01`, transformed, split along the
fixed diagonal into triangles `(w00, w10, w11)` and `(w00, w11, w01)`, with
fill color decided by the parity of `i + j`. -/
noncomputable def cellFacets (latsL lonsL : List ℝ) (spinDeg tiltDeg radius : ℝ)
    (i j : ℕ) : List Facet :=
  let lat0 := latsL.getD i 0
  let lat1 := latsL.getD (i + 1) 0
  let lon0 := lonsL.getD j 0
  let lon1 := lonsL.getD (j + 1) 0
  let v00 := sph_to_cart lat0 lon0 radius
  let v10 := sph_to_cart lat1 lon0 radius
  let v11 := sph_to_cart lat1 lon1 radius
  let v01 := sph_to_cart lat0 lon1 radius
  let w00 := xform spinDeg tiltDeg v00
  let w10 := xform spinDeg tiltDeg v10
  let w11 := xform spinDeg tiltDeg v11
  let w01 := xform spinDeg tiltDeg v01
  let fill := if (i + j) % 2 = 0 then COLOR_RED else COLOR_WHITE
  [⟨w00, w10, w11, fill⟩, ⟨w00, w11, w01, fill⟩]

/-- All facets the tessellation stage generates before culling: two facets per
cell, over all `B × G` cells, in loop order. -/
noncomputable def allFacets (B G : ℕ) (spinDeg tiltDeg radius : ℝ) : List Facet :=
  (List.range B).flatMap fun i =>
    (List.range G).flatMap fun j =>
      cellFacets (lats B) (lons G) spinDeg tiltDeg radius i j

/-- The (non-normalized) facet normal the culling test computes:
`cross(sub(b, a), sub(c, a))` in the source. -/
def facetNormal (f : Facet) : Vec3 :=
  cross (sub f.b f.a) (sub f.c f.a)

/-- The source's visibility test: the facet is kept iff
`dot(n, view_dir) < 0.0`. -/
def keepFacet (f : Facet) : Prop :=
  dot (facetNormal f) viewDir < 0

/-- The facets retained by the culling stage. -/
noncomputable def retainedFacets (B G : ℕ) (spinDeg tiltDeg radius : ℝ) : List Facet :=
  (allFacets B G spinDeg tiltDeg radius).filter
    fun f => decide (dot (facetNormal f) viewDir < 0)

/-- The facets retained when the culling test is run with the mathematically
standard cross product instead of the source's `cross`. Spec-side definition
for the refinement comparison. -/
noncomputable def retainedFacetsStandard (B G : ℕ) (spinDeg tiltDeg radius : ℝ) : List Facet :=
  (allFacets B G spinDeg tiltDeg radius).filter
    fun f => decide (dot (crossStandard (sub f.b f.a) (sub f.c f.a)) viewDir < 0)

/-- One element of the grid group emitted by `grid_svg` in the source: the
outer border rectangle or one interior line segment. -/
inductive GridElem where
  | rect (x y w h : ℝ)
  | line (x1 y1 x2 y2 : ℝ)

/-- The grid group of the source's `grid_svg`: the border rectangle, then the
vertical interior lines for `c in range(1, cellsW)`, then the horizontal
interior lines for `r in range(1, cellsH)`. -/
def grid_svg (cellW cellH : ℝ) (cellsW cellsH : ℕ) (originX originY : ℝ) : List GridElem :=
  let x0 := originX
  let y0 := originY
  let w := (cellsW : ℝ) * cellW
  let h := (cellsH : ℝ) * cellH
  [GridElem.rect x0 y0 w h]
    ++ (List.range' 1 (cellsW - 1)).map
        (fun (c : ℕ) => GridElem.line (x0 + (c : ℝ) * cellW) y0 (x0 + (c : ℝ) * cellW) (y0 + h))
    ++ (List.range' 1 (cellsH - 1)).map
        (fun (r : ℕ) => GridElem.line x0 (y0 + (r : ℝ) * cellH) (x0 + w) (y0 + (r : ℝ) * cellH))

/-- One element of the assembled SVG document body, in the order the source
emits them: optional background rectangle, optional grid group, then one
polygon per retained facet. -/
inductive SvgElem where
  | background (w h : ℝ) (color : String)
  | gridGroup (color : String) (strokeWidth : ℝ) (elems : List GridElem)
  | polygon (pts : List Vec2) (fill : String) (strokeWidth : ℝ) (stroke : String)

/-- The per-facet stroke color choice of the source:
`STROKE_OVERRIDE if STROKE_OVERRIDE is not None else fill`. -/
def strokeColorOf (strokeOverride : Option String) (fill : String) : String :=
  match strokeOverride with
  | some c => c
  | none => fill

/-- The polygon elements the source emits for grid cell `(i, j)`: each of the
cell's two facets is tested with the culling predicate and, when kept,
serialized as a polygon of its three projected vertices. -/
noncomputable def cellElems (latsL lonsL : List ℝ) (spinDeg tiltDeg radius cx cy : ℝ)
    (strokeWidth : ℝ) (strokeOverride : Option String) (i j : ℕ) : List SvgElem :=
  (cellFacets latsL lonsL spinDeg tiltDeg radius i j).flatMap fun f =>
    if dot (facetNormal f) viewDir < 0 then
      [SvgElem.polygon
        [project_to_svg cx cy f.a, project_to_svg cx cy f.b, project_to_svg cx cy f.c]
        f.fill strokeWidth (strokeColorOf strokeOverride f.fill)]
    else []

/-- The body of the assembled document, in the source's emission order:
optional background, optional grid group, then the surviving facet polygons
produced by the cell loops. -/
noncomputable def docElems (canvasW canvasH : ℝ) (drawBackground : Bool) (backgroundColor : String)
    (drawGrid : Bool) (gridColor : String) (gridStrokeWidth gridCellW gridCellH : ℝ)
    (gridCellsW gridCellsH : ℕ) (gridOriginX gridOriginY : ℝ)
    (latsL lonsL : List ℝ) (B G : ℕ) (radius cx cy spinDeg tiltDeg : ℝ)
    (strokeWidth : ℝ) (strokeOverride : Option String) : List SvgElem :=
  (if drawBackground then [SvgElem.background canvasW canvasH backgroundColor] else [])
    ++ (if drawGrid then
          [SvgElem.gridGroup gridColor gridStrokeWidth
            (grid_svg gridCellW gridCellH gridCellsW gridCellsH gridOriginX gridOriginY)]
        else [])
    ++ (List.range B).flatMap fun i =>
        (List.range G).flatMap fun j =>
          cellElems latsL lonsL spinDeg tiltDeg radius cx cy strokeWidth strokeOverride i j

/-- The facet color as a function of the cell indices, as the source computes
it: red when `(i + j) % 2 == 0`, white otherwise. -/
def checker (i j : ℕ) : String :=
  if (i + j) % 2 = 0 then COLOR_RED else COLOR_WHITE

/-- The ways a build can fail: the even-count assertion of the source
(`ConfigurationError` in the specification's terms), or Python's
`ZeroDivisionError` raised by real division by zero. -/
inductive BuildError where
  | configurationError
  | zeroDivisionError
  deriving DecidableEq

/-- Python real division, which raises `ZeroDivisionError` when the divisor
is zero. -/
noncomputable def pydiv (a b : ℝ) : Except BuildError ℝ :=
  if b = 0 then .error .zeroDivisionError else .ok (a / b)

/-- The latitude sample computation with Python's division semantics: each
sample divides by `LAT_BANDS`, so the whole comprehension fails with
`ZeroDivisionError` when `B = 0`. -/
noncomputable def latsE (B : ℕ) : Except BuildError (List ℝ) :=
  (List.range (B + 1)).mapM fun (i : ℕ) => do
    let q ← pydiv ((i : ℕ) * π) (B : ℝ)
    pure (-(π / 2) + q)

/-- The longitude sample computation with Python's division semantics: each
sample divides by `LONG_GORES`, so the whole comprehension fails with
`ZeroDivisionError` when `G = 0`. -/
noncomputable def lonsE (G : ℕ) : Except BuildError (List ℝ) :=
  (List.range (G + 1)).mapM fun (j : ℕ) => do
    let q ← pydiv ((j : ℕ) * 2 * π) (G : ℝ)
    pure q

/-- The source's `build_boing_svg`, modelled structurally: first the even-count
assertion, then the two sample-list comprehensions (which carry Python's
division-by-zero failure mode), then the document body in emission order. -/
noncomputable def build_boing_svg (canvasW canvasH : ℝ) (drawBackground : Bool)
    (backgroundColor : String) (drawGrid : Bool) (gridColor : String)
    (gridStrokeWidth gridCellW gridCellH : ℝ) (gridCellsW gridCellsH : ℕ)
    (gridOriginX gridOriginY : ℝ) (B G : ℕ) (radius cx cy spinDeg tiltDeg : ℝ)
    (strokeWidth : ℝ) (strokeOverride : Option String) :
    Except BuildError (List SvgElem) :=
  if B % 2 = 0 ∧ G % 2 = 0 then
    (latsE B).bind fun latsL =>
      (lonsE G).bind fun lonsL =>
        .ok (docElems canvasW canvasH drawBackground backgroundColor drawGrid gridColor
          gridStrokeWidth gridCellW gridCellH gridCellsW gridCellsH gridOriginX gridOriginY
          latsL lonsL B G radius cx cy spinDeg tiltDeg strokeWidth strokeOverride)
  else .error .configurationError

/-! ## Shared helper lemmas -/

/-- Indexing the latitude sample list yields the closed-form sample. -/
lemma getD_lats (B i : ℕ) (h : i < B + 1) : (lats B).getD i 0 = latAt B i := by
  unfold lats
  rw [List.getD_eq_getElem?_getD, List.getElem?_map, List.getElem?_range h]
  rfl

/-- Indexing the longitude sample list yields the closed-form sample. -/
lemma getD_lons (G j : ℕ) (h : j < G + 1) : (lons G).getD j 0 = lonAt G j := by
  unfold lons
  rw [List.getD_eq_getElem?_getD, List.getElem?_map, List.getElem?_range h]
  rfl

/-- Indexing a mapped `range'` list (step 1) yields the function at the shifted
index. -/
lemma getD_map_range' {α : Type} (f : ℕ → α) (s n k : ℕ) (d : α) (h : k < n) :
    ((List.range' s n).map f).getD k d = f (s + k) := by
  rw [List.getD_eq_getElem?_getD, List.getElem?_map, List.getElem?_range' s 1 h]
  simp

/-- A monadic map over `Except` that never fails is the ordinary map. -/
lemma mapM_ok_of_forall {α β : Type} (l : List α) (f : α → Except BuildError β)
    (g : α → β) (h : ∀ a ∈ l, f a = .ok (g a)) : l.mapM f = .ok (l.map g) := by
  induction l with
  | nil => rfl
  | cons a l ih =>
    rw [List.mapM_cons, h a (by simp), ih (fun a ha => h a (by simp [ha]))]
    rfl

/-- For a positive band count the latitude comprehension cannot divide by zero,
so the fallible computation returns the sample list. -/
lemma latsE_ok (B : ℕ) (hB : 0 < B) : latsE B = .ok (lats B) := by
  unfold latsE lats
  refine mapM_ok_of_forall _ _ _ (fun i _ => ?_)
  have hB' : ((B : ℕ) : ℝ) ≠ 0 := Nat.cast_ne_zero.mpr hB.ne'
  simp [pydiv, hB', latAt]

/-- For a positive gore count the longitude comprehension cannot divide by
zero, so the fallible computation returns the sample list. -/
lemma lonsE_ok (G : ℕ) (hG : 0 < G) : lonsE G = .ok (lons G) := by
  unfold lonsE lons
  refine mapM_ok_of_forall _ _ _ (fun j _ => ?_)
  have hG' : ((G : ℕ) : ℝ) ≠ 0 := Nat.cast_ne_zero.mpr hG.ne'
  simp [pydiv, hG', lonAt]

/-- A loop that conditionally emits one element per input equals mapping over
the filtered input. -/
lemma flatMap_if_singleton {α β : Type} (l : List α) (p : α → Prop) [DecidablePred p]
    (g : α → β) :
    (l.flatMap fun a => if p a then [g a] else []) =
      (l.filter fun a => decide (p a)).map g := by
  induction l with
  | nil => rfl
  | cons a l ih =>
    by_cases h : p a <;> simp [List.filter_cons, h, ih]

/-- Concatenating constant-length blocks over `range n` gives `n * k`
elements. -/
lemma length_flatMap_const {β : Type} (n : ℕ) (f : ℕ → List β) (k : ℕ)
    (h : ∀ i, (f i).length = k) : ((List.range n).flatMap f).length = n * k := by
  rw [List.length_flatMap]
  simp [Function.comp_def, h, List.map_const', List.sum_replicate, smul_eq_mul]

/-! ## Claims -/

/-- C1: the source's cross-product function does not return the standard cross
product. At `a = (0,1,0)`, `b = (1,0,0)` the source returns `(0,0,0)` while the
standard cross product is `(0,0,-1)`: the third component of the source reads
`ax*by - ay*bz` where the standard formula has `ax*by - ay*bx`. -/
theorem c1_cross_not_standard :
    cross ⟨0, 1, 0⟩ ⟨1, 0, 0⟩ = ⟨0, 0, 0⟩ ∧
    crossStandard ⟨0, 1, 0⟩ ⟨1, 0, 0⟩ = ⟨0, 0, -1⟩ ∧
    cross ⟨0, 1, 0⟩ ⟨1, 0, 0⟩ ≠ crossStandard ⟨0, 1, 0⟩ ⟨1, 0, 0⟩ := by
  refine ⟨?_, ?_, ?_⟩ <;> simp [cross, crossStandard, Vec3.mk.injEq]

/-- C10: the visibility decision depends only on the y-component of the
computed normal (the view direction is `(0, -1, 0)`), and on y-components the
source's `cross` agrees with the standard cross product; hence the retained
facet set is exactly what culling with the standard cross product retains. -/
theorem c10_culling_refines_standard_cross :
    (∀ u v : Vec3, dot (cross u v) viewDir = -(cross u v).y ∧
      (cross u v).y = (crossStandard u v).y) ∧
    ∀ (B G : ℕ) (spinDeg tiltDeg radius : ℝ),
      retainedFacets B G spinDeg tiltDeg radius =
        retainedFacetsStandard B G spinDeg tiltDeg radius := by
  constructor
  · intro u v
    constructor
    · simp [dot, viewDir, cross]
    · rfl
  · intro B G s t r
    unfold retainedFacets retainedFacetsStandard
    refine List.filter_congr (fun f _ => ?_)
    have h : dot (facetNormal f) viewDir =
        dot (crossStandard (sub f.b f.a) (sub f.c f.a)) viewDir := by
      simp [facetNormal, dot, viewDir, cross, crossStandard]
    rw [h]

/-- C2: membership in the retained facet list is exactly membership in the
generated facet list together with a strictly negative dot product of the
computed normal with the view direction `(0, -1, 0)`; a facet whose dot
product is exactly zero is discarded. -/
theorem c2_culling_rule (B G : ℕ) (spinDeg tiltDeg radius : ℝ) (f : Facet) :
    (f ∈ retainedFacets B G spinDeg tiltDeg radius ↔
      f ∈ allFacets B G spinDeg tiltDeg radius ∧
        dot (cross (sub f.b f.a) (sub f.c f.a)) viewDir < 0) ∧
    (dot (cross (sub f.b f.a) (sub f.c f.a)) viewDir = 0 →
      f ∉ retainedFacets B G spinDeg tiltDeg radius) := by
  have hmem : f ∈ retainedFacets B G spinDeg tiltDeg radius ↔
      f ∈ allFacets B G spinDeg tiltDeg radius ∧
        dot (cross (sub f.b f.a) (sub f.c f.a)) viewDir < 0 := by
    unfold retainedFacets
    rw [List.mem_filter]
    simp [facetNormal]
  refine ⟨hmem, fun h0 hin => ?_⟩
  have hlt := (hmem.1 hin).2
  rw [h0] at hlt
  exact lt_irrefl 0 hlt

/-- C2 witness: the degenerate facet with all three vertices at the origin has
dot product exactly zero and is not retained (for the default-like
configuration B = G = 2, spin = tilt = 0, radius = 250). -/
theorem c2_culling_rule_witness :
    dot (cross (sub (Vec3.mk 0 0 0) (Vec3.mk 0 0 0)) (sub (Vec3.mk 0 0 0) (Vec3.mk 0 0 0)))
        viewDir = 0 ∧
    Facet.mk (Vec3.mk 0 0 0) (Vec3.mk 0 0 0) (Vec3.mk 0 0 0) COLOR_RED ∉
      retainedFacets 2 2 0 0 250 := by
  have h0 : dot (cross (sub (Vec3.mk 0 0 0) (Vec3.mk 0 0 0))
      (sub (Vec3.mk 0 0 0) (Vec3.mk 0 0 0))) viewDir = 0 := by
    simp [dot, cross, sub, viewDir]
  exact ⟨h0,
    (c2_culling_rule 2 2 0 0 250
      (Facet.mk (Vec3.mk 0 0 0) (Vec3.mk 0 0 0) (Vec3.mk 0 0 0) COLOR_RED)).2 h0⟩

/-- C3: `rot_z` rotates the (x, y) plane and leaves z unchanged, `rot_y`
computes `x' = cos a * x + sin a * z`, `y' = y`, `z' = -sin a * x + cos a * z`,
the source's vertex transform is spin about Z first and then tilt about Y, and
this composition is not commutative: at spin = 30°, tilt = 16° on the point
`(1, 0, 0)`, tilt-then-spin differs from the mandated spin-then-tilt. -/
theorem c3_spin_then_tilt :
    (∀ (p : Vec3) (a : ℝ), rot_z p a =
      ⟨cos (deg2rad a) * p.x - sin (deg2rad a) * p.y,
       sin (deg2rad a) * p.x + cos (deg2rad a) * p.y, p.z⟩) ∧
    (∀ (p : Vec3) (a : ℝ), rot_y p a =
      ⟨cos (deg2rad a) * p.x + sin (deg2rad a) * p.z, p.y,
       -sin (deg2rad a) * p.x + cos (deg2rad a) * p.z⟩) ∧
    (∀ (spinDeg tiltDeg : ℝ) (v : Vec3),
      xform spinDeg tiltDeg v = rot_y (rot_z v spinDeg) tiltDeg) ∧
    rot_z (rot_y ⟨1, 0, 0⟩ 16) 30 ≠ xform 30 16 ⟨1, 0, 0⟩ := by
  refine ⟨fun p a => rfl, fun p a => rfl, fun s t v => rfl, fun h => ?_⟩
  have h30 : deg2rad 30 = π / 6 := by unfold deg2rad; ring
  have h16 : deg2rad 16 = 4 * π / 45 := by unfold deg2rad; ring
  have hcos : cos (4 * π / 45) ≠ 1 := by
    intro hc
    have hpi := pi_pos
    have h0 :=
      (Real.cos_eq_one_iff_of_lt_of_lt (x := 4 * π / 45) (by nlinarith) (by nlinarith)).1 hc
    nlinarith
  have hy := congrArg Vec3.y h
  simp [xform, rot_z, rot_y, h30, h16, Real.sin_pi_div_six] at hy
  exact hcos (by linarith)

/-- C6: both facets of a cell carry the color decided by `(i + j) % 2`; two
cells share a color exactly when their index sums have equal parity; cells
adjacent by one in band or gore index differ in color, and cells two apart in
one index share it. -/
theorem c6_checkerboard (latsL lonsL : List ℝ) (spinDeg tiltDeg radius : ℝ)
    (i j i' j' : ℕ) :
    ((cellFacets latsL lonsL spinDeg tiltDeg radius i j).map Facet.fill =
      [checker i j, checker i j]) ∧
    (checker i j = checker i' j' ↔ (i + j) % 2 = (i' + j') % 2) ∧
    checker (i + 1) j ≠ checker i j ∧
    checker i (j + 1) ≠ checker i j ∧
    checker (i + 2) j = checker i j ∧
    checker i (j + 2) = checker i j := by
  have hne : COLOR_RED ≠ COLOR_WHITE := by decide
  have key : ∀ a b : ℕ, checker a b = checker i j ↔ (a + b) % 2 = (i + j) % 2 := by
    intro a b
    unfold checker
    rcases Nat.mod_two_eq_zero_or_one (a + b) with h1 | h1 <;>
      rcases Nat.mod_two_eq_zero_or_one (i + j) with h2 | h2 <;>
        simp [h1, h2, hne, hne.symm]
  refine ⟨?_, ?_, ?_, ?_, ?_, ?_⟩
  · simp [cellFacets, checker]
  · constructor
    · intro h
      have := (key i' j').1 h.symm
      omega
    · intro h
      exact ((key i' j').2 (by omega)).symm
  · intro h
    have := (key (i + 1) j).1 h
    omega
  · intro h
    have := (key i (j + 1)).1 h
    omega
  · exact (key (i + 2) j).2 (by omega)
  · exact (key i (j + 2)).2 (by omega)

/-- C4 (amended to positive counts): the tessellator produces `B + 1` latitude
samples evenly spaced over `[-π/2, π/2]` and `G + 1` longitude samples evenly
spaced over `[0, 2π]` whose last sample is the angle `2π`, the same angle as
the first sample `0`; each `(lat, lon)` pair is converted to a point at radius
`r` by `x = r cos lat cos lon`, `y = r cos lat sin lon`, `z = r sin lat`. -/
theorem c4_sampling (B G : ℕ) (hBe : B % 2 = 0) (hGe : G % 2 = 0)
    (hB0 : 0 < B) (hG0 : 0 < G) :
    latsE B = .ok (lats B) ∧
    lonsE G = .ok (lons G) ∧
    (lats B).length = B + 1 ∧
    (lons G).length = G + 1 ∧
    (∀ i, i < B + 1 → (lats B).getD i 0 = -(π / 2) + (i : ℝ) * π / (B : ℝ)) ∧
    (∀ i, i < B → (lats B).getD (i + 1) 0 - (lats B).getD i 0 = π / (B : ℝ)) ∧
    (lats B).getD 0 0 = -(π / 2) ∧
    (lats B).getD B 0 = π / 2 ∧
    (∀ j, j < G + 1 → (lons G).getD j 0 = (j : ℝ) * (2 * π) / (G : ℝ)) ∧
    (∀ j, j < G → (lons G).getD (j + 1) 0 - (lons G).getD j 0 = 2 * π / (G : ℝ)) ∧
    (lons G).getD 0 0 = 0 ∧
    (lons G).getD G 0 = 2 * π ∧
    cos ((lons G).getD G 0) = cos ((lons G).getD 0 0) ∧
    sin ((lons G).getD G 0) = sin ((lons G).getD 0 0) ∧
    (∀ lat lon r : ℝ, sph_to_cart lat lon r =
      ⟨r * cos lat * cos lon, r * cos lat * sin lon, r * sin lat⟩) := by
  have hBne : ((B : ℕ) : ℝ) ≠ 0 := Nat.cast_ne_zero.mpr hB0.ne'
  have hGne : ((G : ℕ) : ℝ) ≠ 0 := Nat.cast_ne_zero.mpr hG0.ne'
  have hlat0 : (lats B).getD 0 0 = -(π / 2) := by
    rw [getD_lats B 0 (by omega)]
    simp [latAt]
  have hlatB : (lats B).getD B 0 = π / 2 := by
    rw [getD_lats B B (by omega)]
    unfold latAt
    field_simp
    ring
  have hlon0 : (lons G).getD 0 0 = 0 := by
    rw [getD_lons G 0 (by omega)]
    simp [lonAt]
  have hlonG : (lons G).getD G 0 = 2 * π := by
    rw [getD_lons G G (by omega)]
    unfold lonAt
    field_simp
    ring
  refine ⟨latsE_ok B hB0, lonsE_ok G hG0, by simp [lats], by simp [lons],
    ?_, ?_, hlat0, hlatB, ?_, ?_, hlon0, hlonG, ?_, ?_, fun lat lon r => rfl⟩
  · intro i hi
    rw [getD_lats B i hi]
    rfl
  · intro i hi
    rw [getD_lats B (i + 1) (by omega), getD_lats B i (by omega)]
    unfold latAt
    push_cast
    field_simp
    ring
  · intro j hj
    rw [getD_lons G j hj]
    unfold lonAt
    ring
  · intro j hj
    rw [getD_lons G (j + 1) (by omega), getD_lons G j (by omega)]
    unfold lonAt
    push_cast
    field_simp
    ring
  · rw [hlonG, hlon0]
    simp [Real.cos_two_pi]
  · rw [hlonG, hlon0]
    simp [Real.sin_two_pi]

/-- C4 witness at B = G = 2. -/
theorem c4_sampling_witness :
    (lats 2).length = 2 + 1 ∧ (lats 2).getD 0 0 = -(π / 2) ∧
    (lats 2).getD 2 0 = π / 2 ∧ (lons 2).getD 0 0 = 0 ∧
    (lons 2).getD 2 0 = 2 * π := by
  obtain ⟨-, -, h3, -, -, -, h7, h8, -, -, h11, h12, -⟩ :=
    c4_sampling 2 2 (by norm_num) (by norm_num) (by norm_num) (by norm_num)
  exact ⟨h3, h7, h8, h11, h12⟩

/-- C5: for even `B, G ≥ 2` the tessellation stage generates exactly
`2 * B * G` facets before culling — two per grid cell, split along the fixed
diagonal into triangle `(lat0,lon0), (lat1,lon0), (lat1,lon1)` and triangle
`(lat0,lon0), (lat1,lon1), (lat0,lon1)` — and the culling stage retains at
most `2 * B * G` facets. -/
theorem c5_facet_counts (B G : ℕ) (spinDeg tiltDeg radius : ℝ)
    (hB2 : 2 ≤ B) (hG2 : 2 ≤ G) (hBe : B % 2 = 0) (hGe : G % 2 = 0) :
    (allFacets B G spinDeg tiltDeg radius).length = 2 * B * G ∧
    (retainedFacets B G spinDeg tiltDeg radius).length ≤ 2 * B * G ∧
    (∀ i j, i < B → j < G →
      cellFacets (lats B) (lons G) spinDeg tiltDeg radius i j =
        [⟨xform spinDeg tiltDeg (sph_to_cart (latAt B i) (lonAt G j) radius),
          xform spinDeg tiltDeg (sph_to_cart (latAt B (i + 1)) (lonAt G j) radius),
          xform spinDeg tiltDeg (sph_to_cart (latAt B (i + 1)) (lonAt G (j + 1)) radius),
          if (i + j) % 2 = 0 then COLOR_RED else COLOR_WHITE⟩,
         ⟨xform spinDeg tiltDeg (sph_to_cart (latAt B i) (lonAt G j) radius),
          xform spinDeg tiltDeg (sph_to_cart (latAt B (i + 1)) (lonAt G (j + 1)) radius),
          xform spinDeg tiltDeg (sph_to_cart (latAt B i) (lonAt G (j + 1)) radius),
          if (i + j) % 2 = 0 then COLOR_RED else COLOR_WHITE⟩]) := by
  have hlen : (allFacets B G spinDeg tiltDeg radius).length = 2 * B * G := by
    unfold allFacets
    rw [length_flatMap_const B
      (fun i => (List.range G).flatMap fun j =>
        cellFacets (lats B) (lons G) spinDeg tiltDeg radius i j) (G * 2)
      (fun i => length_flatMap_const G
        (fun j => cellFacets (lats B) (lons G) spinDeg tiltDeg radius i j) 2
        (fun j => rfl))]
    ring
  refine ⟨hlen, ?_, ?_⟩
  · calc (retainedFacets B G spinDeg tiltDeg radius).length
        ≤ (allFacets B G spinDeg tiltDeg radius).length :=
          List.length_filter_le _ _
      _ = 2 * B * G := hlen
  · intro i j hi hj
    unfold cellFacets
    rw [getD_lats B i (by omega), getD_lats B (i + 1) (by omega),
      getD_lons G j (by omega), getD_lons G (j + 1) (by omega)]

/-- C5 witness at B = G = 2, spin = tilt = 0, radius = 250. -/
theorem c5_facet_counts_witness :
    (allFacets 2 2 0 0 250).length = 2 * 2 * 2 ∧
    (retainedFacets 2 2 0 0 250).length ≤ 2 * 2 * 2 := by
  have h := c5_facet_counts 2 2 0 0 250 (by norm_num) (by norm_num)
    (by norm_num) (by norm_num)
  exact ⟨h.1, h.2.1⟩

/-- C7 counterexample: with band count 0 and gore count 2 — both even, so the
claimed precondition holds and the even-count validation passes — the build
still fails, with a division by zero in the latitude comprehension rather than
a `ConfigurationError`: the claim that nothing past the validation can fail is
false as stated. -/
theorem c7_counterexample :
    (0 % 2 = 0 ∧ 2 % 2 = 0) ∧
    BuildError.zeroDivisionError ≠ BuildError.configurationError ∧
    build_boing_svg 500 500 false "#aaaaaa" true "#660066" 1 50 50 10 10 0 0
        0 2 250 250 250 0 16 0 none = .error .zeroDivisionError := by
  refine ⟨⟨rfl, rfl⟩, by decide, ?_⟩
  have h : latsE 0 = .error .zeroDivisionError := by
    unfold latsE
    rw [show List.range (0 + 1) = [0] from rfl, List.mapM_cons]
    simp [pydiv]
    rfl
  unfold build_boing_svg
  rw [if_pos ⟨rfl, rfl⟩, h]
  rfl

/-- C7 (amended to positive counts): an odd band or gore count makes the build
fail fast with a `ConfigurationError` before any geometry is generated; when
both counts are even and nonzero the validation passes and nothing else fails:
the build returns the assembled document. -/
theorem c7_validation (canvasW canvasH : ℝ) (drawBackground : Bool)
    (backgroundColor : String) (drawGrid : Bool) (gridColor : String)
    (gridStrokeWidth gridCellW gridCellH : ℝ) (gridCellsW gridCellsH : ℕ)
    (gridOriginX gridOriginY : ℝ) (B G : ℕ) (radius cx cy spinDeg tiltDeg : ℝ)
    (strokeWidth : ℝ) (strokeOverride : Option String) :
    (¬(B % 2 = 0 ∧ G % 2 = 0) →
      build_boing_svg canvasW canvasH drawBackground backgroundColor drawGrid gridColor
          gridStrokeWidth gridCellW gridCellH gridCellsW gridCellsH gridOriginX gridOriginY
          B G radius cx cy spinDeg tiltDeg strokeWidth strokeOverride =
        .error .configurationError) ∧
    (B % 2 = 0 → G % 2 = 0 → 0 < B → 0 < G →
      build_boing_svg canvasW canvasH drawBackground backgroundColor drawGrid gridColor
          gridStrokeWidth gridCellW gridCellH gridCellsW gridCellsH gridOriginX gridOriginY
          B G radius cx cy spinDeg tiltDeg strokeWidth strokeOverride =
        .ok (docElems canvasW canvasH drawBackground backgroundColor drawGrid gridColor
          gridStrokeWidth gridCellW gridCellH gridCellsW gridCellsH gridOriginX gridOriginY
          (lats B) (lons G) B G radius cx cy spinDeg tiltDeg strokeWidth strokeOverride)) := by
  constructor
  · intro h
    unfold build_boing_svg
    rw [if_neg h]
  · intro hBe hGe hB0 hG0
    unfold build_boing_svg
    rw [if_pos ⟨hBe, hGe⟩, latsE_ok B hB0, lonsE_ok G hG0]
    rfl

/-- C7 witness: with the source's constant configuration, an odd band count 3
is rejected with a `ConfigurationError`, and the source's even counts
`B = 8, G = 16` build the document. -/
theorem c7_validation_witness :
    build_boing_svg 500 500 false "#aaaaaa" true "#660066" 1 50 50 10 10 0 0
        3 16 250 250 250 0 16 0 none = .error .configurationError ∧
    build_boing_svg 500 500 false "#aaaaaa" true "#660066" 1 50 50 10 10 0 0
        8 16 250 250 250 0 16 0 none =
      .ok (docElems 500 500 false "#aaaaaa" true "#660066" 1 50 50 10 10 0 0
        (lats 8) (lons 16) 8 16 250 250 250 0 16 0 none) := by
  constructor
  · exact (c7_validation 500 500 false "#aaaaaa" true "#660066" 1 50 50 10 10 0 0
      3 16 250 250 250 0 16 0 none).1 (by norm_num)
  · exact (c7_validation 500 500 false "#aaaaaa" true "#660066" 1 50 50 10 10 0 0
      8 16 250 250 250 0 16 0 none).2 rfl rfl (by norm_num) (by norm_num)

/-- C8: the grid generator emits exactly one bounding rectangle followed by
`cellsWide - 1` evenly spaced vertical interior lines and `cellsHigh - 1`
evenly spaced horizontal interior lines, for any grid parameters (the function
takes no sphere parameter at all); with cells 10 × 10 of size 50 × 50 at
origin (0, 0) this is a rectangle spanning (0,0)-(500,500), 9 vertical lines
and 9 horizontal lines. -/
theorem c8_grid (cellW cellH : ℝ) (cellsW cellsH : ℕ) (ox oy : ℝ) :
    (grid_svg cellW cellH cellsW cellsH ox oy).length =
      1 + (cellsW - 1) + (cellsH - 1) ∧
    (grid_svg cellW cellH cellsW cellsH ox oy).getD 0 (GridElem.rect 0 0 0 0) =
      GridElem.rect ox oy ((cellsW : ℝ) * cellW) ((cellsH : ℝ) * cellH) ∧
    (∀ k, k < cellsW - 1 →
      (grid_svg cellW cellH cellsW cellsH ox oy).getD (1 + k) (GridElem.rect 0 0 0 0) =
        GridElem.line (ox + ((k : ℝ) + 1) * cellW) oy (ox + ((k : ℝ) + 1) * cellW)
          (oy + (cellsH : ℝ) * cellH)) ∧
    (∀ k, k < cellsH - 1 →
      (grid_svg cellW cellH cellsW cellsH ox oy).getD (1 + (cellsW - 1) + k)
          (GridElem.rect 0 0 0 0) =
        GridElem.line ox (oy + ((k : ℝ) + 1) * cellH) (ox + (cellsW : ℝ) * cellW)
          (oy + ((k : ℝ) + 1) * cellH)) ∧
    grid_svg 50 50 10 10 0 0 = [GridElem.rect 0 0 500 500,
      GridElem.line 50 0 50 500, GridElem.line 100 0 100 500, GridElem.line 150 0 150 500,
      GridElem.line 200 0 200 500, GridElem.line 250 0 250 500, GridElem.line 300 0 300 500,
      GridElem.line 350 0 350 500, GridElem.line 400 0 400 500, GridElem.line 450 0 450 500,
      GridElem.line 0 50 500 50, GridElem.line 0 100 500 100, GridElem.line 0 150 500 150,
      GridElem.line 0 200 500 200, GridElem.line 0 250 500 250, GridElem.line 0 300 500 300,
      GridElem.line 0 350 500 350, GridElem.line 0 400 500 400,
      GridElem.line 0 450 500 450] := by
  refine ⟨?_, ?_, ?_, ?_, ?_⟩
  · simp only [grid_svg, List.length_append, List.length_map, List.length_range',
      List.length_singleton]
  · simp only [grid_svg]
    rw [List.append_assoc, List.singleton_append, List.getD_cons_zero]
  · intro k hk
    simp only [grid_svg]
    rw [List.append_assoc, List.singleton_append]
    rw [show 1 + k = k + 1 from by omega, List.getD_cons_succ]
    rw [List.getD_append _ _ _ k (by simp [hk])]
    rw [List.getD_eq_getElem?_getD, List.getElem?_map, List.getElem?_range' 1 1 hk]
    simp only [Option.map_some', Option.getD_some]
    push_cast
    ring_nf
  · intro k hk
    simp only [grid_svg]
    rw [List.append_assoc, List.singleton_append]
    rw [show 1 + (cellsW - 1) + k = ((cellsW - 1) + k) + 1 from by omega, List.getD_cons_succ]
    rw [List.getD_append_right _ _ _ _ (by simp)]
    rw [List.getD_eq_getElem?_getD, List.getElem?_map]
    rw [show (cellsW - 1) + k -
        (List.map (fun (c : ℕ) => GridElem.line (ox + (c : ℝ) * cellW) oy
          (ox + (c : ℝ) * cellW) (oy + (cellsH : ℝ) * cellH))
          (List.range' 1 (cellsW - 1))).length = k from by simp]
    rw [List.getElem?_range' 1 1 hk]
    simp only [Option.map_some', Option.getD_some]
    push_cast
    ring_nf
  · simp only [grid_svg]
    norm_num [show List.range' 1 9 = [1, 2, 3, 4, 5, 6, 7, 8, 9] from by decide,
      GridElem.line.injEq, GridElem.rect.injEq]

/-- C8 witness: for the 10 × 10 grid of 50 × 50 cells at the origin, the first
vertical interior line sits at x = 50 and the first horizontal interior line
at y = 50. -/
theorem c8_grid_witness :
    (grid_svg 50 50 10 10 0 0).getD (1 + 0) (GridElem.rect 0 0 0 0) =
      GridElem.line (0 + (((0 : ℕ) : ℝ) + 1) * 50) 0 (0 + (((0 : ℕ) : ℝ) + 1) * 50)
        (0 + ((10 : ℕ) : ℝ) * 50) ∧
    (grid_svg 50 50 10 10 0 0).getD (1 + (10 - 1) + 0) (GridElem.rect 0 0 0 0) =
      GridElem.line 0 (0 + (((0 : ℕ) : ℝ) + 1) * 50) (0 + ((10 : ℕ) : ℝ) * 50)
        (0 + (((0 : ℕ) : ℝ) + 1) * 50) := by
  have h := c8_grid 50 50 10 10 0 0
  exact ⟨h.2.2.1 0 (by norm_num), h.2.2.2.1 0 (by norm_num)⟩

/-- C9: the assembled document body is, in fixed order, the optional
full-canvas background rectangle (only when the background toggle is on), then
the optional grid group (only when the grid toggle is on), then one filled
polygon per retained facet; each polygon's stroke color is its facet's fill
color when no override is configured, and the override otherwise. -/
theorem c9_document_order (canvasW canvasH : ℝ) (drawBackground : Bool)
    (backgroundColor : String) (drawGrid : Bool) (gridColor : String)
    (gridStrokeWidth gridCellW gridCellH : ℝ) (gridCellsW gridCellsH : ℕ)
    (gridOriginX gridOriginY : ℝ) (B G : ℕ) (radius cx cy spinDeg tiltDeg : ℝ)
    (strokeWidth : ℝ) (strokeOverride : Option String) :
    docElems canvasW canvasH drawBackground backgroundColor drawGrid gridColor
        gridStrokeWidth gridCellW gridCellH gridCellsW gridCellsH gridOriginX gridOriginY
        (lats B) (lons G) B G radius cx cy spinDeg tiltDeg strokeWidth strokeOverride =
      (if drawBackground then [SvgElem.background canvasW canvasH backgroundColor] else [])
        ++ (if drawGrid then
              [SvgElem.gridGroup gridColor gridStrokeWidth
                (grid_svg gridCellW gridCellH gridCellsW gridCellsH gridOriginX gridOriginY)]
            else [])
        ++ (retainedFacets B G spinDeg tiltDeg radius).map
            (fun f => SvgElem.polygon
              [project_to_svg cx cy f.a, project_to_svg cx cy f.b, project_to_svg cx cy f.c]
              f.fill strokeWidth (strokeColorOf strokeOverride f.fill)) ∧
    (∀ fill, strokeColorOf none fill = fill) ∧
    (∀ c fill, strokeColorOf (some c) fill = c) := by
  refine ⟨?_, fun fill => rfl, fun c fill => rfl⟩
  unfold docElems retainedFacets allFacets
  congr 1
  rw [List.filter_flatMap, List.map_flatMap]
  refine congrArg _ (funext fun i => ?_)
  rw [List.filter_flatMap, List.map_flatMap]
  refine congrArg _ (funext fun j => ?_)
  unfold cellElems
  exact flatMap_if_singleton _ _ _

/-- C4 counterexample: a band count of 0 is even, yet the latitude
comprehension does not produce `B + 1 = 1` samples — it fails with Python's
division by zero (`i * math.pi / LAT_BANDS` with `LAT_BANDS = 0`), so the
claim is false without a positivity requirement on the counts. -/
theorem c4_counterexample :
    0 % 2 = 0 ∧ latsE 0 = .error .zeroDivisionError := by
  refine ⟨rfl, ?_⟩
  unfold latsE
  rw [show List.range (0 + 1) = [0] from rfl, List.mapM_cons]
  simp [pydiv]
  rfl
